import Mathlib

/-!
Shallow embedding of the decision-and-risk engine of the pump.fun sniper
bot (files `src/lib.rs`, `src/traders/trader.rs`, `src/utils/token_analyzer.rs`,
`src/types.rs`, `src/config.rs`).

Modelling conventions:
* Rust `f64` values are modelled exactly over `ℚ`; every concrete input used
  below is exactly representable in `f64`, and the arithmetic performed on it
  stays exact, so the rational model agrees with the floating point run.
* Rust `u64`/`u32` arithmetic is modelled on `Nat` with explicit wraparound
  (`% 2^64`, `% 2^32`) where the source performs unchecked `-` or `*`
  (release-mode semantics; debug builds abort at the same inputs).
* `Pubkey` values are modelled as `String` (the ledger is keyed by
  `token_address.to_string()` in the source).
* `DateTime<Utc>` timestamps are modelled as `Nat` and `Utc::now()` readings
  are passed in as explicit `now`/`today` parameters.
* External collaborators (RPC client, transaction builder, price feed,
  randomness in `update_position_price`) are modelled as explicit input
  parameters: the gateway outcome of a send, the wallet balance, and the
  freshly sampled price are arguments of the corresponding functions.
-/

namespace PumpSniper

/-- Position status (`src/types.rs`, enum `PositionStatus`). -/
inductive PositionStatus where
  | Open
  | Closed
  | Partial
deriving DecidableEq, Repr

/-- Token safety status (`src/config.rs`, enum `TokenSafetyStatus`). -/
inductive TokenSafetyStatus where
  | Safe
  | Suspicious
  | Dangerous
deriving DecidableEq, Repr

/-- Safety checks results (`src/types.rs`, struct `SafetyChecks`). -/
structure SafetyChecks where
  has_lock : Bool
  mint_revoked : Bool
  is_honeypot : Bool
  has_social_links : Bool
  creator_verified : Bool
  suspicious_creator : Bool
deriving DecidableEq, Repr

/-- Token safety information (`src/types.rs`, struct `TokenSafety`).
`score` is a `u32` in the source, modelled as `Nat`. -/
structure TokenSafety where
  status : TokenSafetyStatus
  score : Nat
  checks : SafetyChecks
deriving DecidableEq, Repr

/-- Token metrics (`src/types.rs`, struct `TokenMetrics`); `f64` fields
modelled over `ℚ`, `holders : u32` as `Nat`. -/
structure TokenMetrics where
  market_cap : ℚ
  liquidity : ℚ
  holders : Nat
  volume_24h : ℚ
  price : ℚ
  price_change_24h : ℚ
deriving DecidableEq, Repr

/-- Bonding curve information (`src/types.rs`, struct `BondingCurveInfo`);
`u64` reserve fields modelled as `Nat`, `Pubkey` as `String`. -/
structure BondingCurveInfo where
  address : String
  token_address : String
  virtual_sol_reserves : Nat
  virtual_token_reserves : Nat
  real_sol_reserves : Nat
  real_token_reserves : Nat
  token_total_supply : Nat
  complete : Bool
deriving DecidableEq, Repr

/-- Token information (`src/types.rs`, struct `TokenInfo`), restricted to the
fields the decision engine reads (`address`, `symbol`); metadata strings and
social links are consumed only through `SafetyChecks.has_social_links`. -/
structure TokenInfo where
  address : String
  symbol : String
deriving DecidableEq, Repr

/-- Token analysis result (`src/types.rs`, struct `TokenAnalysis`); the
`opportunities` field is not read by the admission or execution path and is
omitted. -/
structure TokenAnalysis where
  token : TokenInfo
  bonding_curve : BondingCurveInfo
  metrics : TokenMetrics
  safety : TokenSafety
deriving DecidableEq, Repr

/-- Bot configuration (`src/config.rs`, struct `BotConfig`), restricted to the
fields the decision engine reads; wire/wallet/telemetry fields are external. -/
structure BotConfig where
  buy_amount_sol : ℚ
  min_liquidity : ℚ
  max_slippage : ℚ
  take_profit_percentage : ℚ
  stop_loss_percentage : ℚ
  trading_cooldown_ms : Nat
  max_trades_per_hour : Nat
  min_market_cap : ℚ
  max_market_cap : ℚ
  simulation_mode : Bool
deriving DecidableEq, Repr

/-- Position information (`src/types.rs`, struct `Position`); `amount : u64`
as `Nat`, prices and PnL over `ℚ`, timestamps as `Nat`. -/
structure Position where
  token_address : String
  token_symbol : String
  amount : Nat
  entry_price : ℚ
  current_price : ℚ
  pnl : ℚ
  pnl_percentage : ℚ
  opened_at : Nat
  last_updated : Nat
  take_profit_price : Option ℚ
  stop_loss_price : Option ℚ
  trailing_stop_price : Option ℚ
  status : PositionStatus
deriving DecidableEq, Repr

/-- Wrapping `u64` subtraction `a - b` (release-mode semantics of the
source's unchecked `-`). -/
def u64_sub (a b : Nat) : Nat :=
  (a + 2 ^ 64 - b) % 2 ^ 64

/-- Safety scoring of `TokenAnalyzer::perform_safety_checks`
(`src/utils/token_analyzer.rs` lines 133-143): start from 100 (an `i32`),
subtract the fixed penalty for each failed check, clamp with
`score.max(0).min(100)`. -/
def safety_score (checks : SafetyChecks) : ℤ :=
  let s : ℤ := 100
  let s := if !checks.has_lock then s - 35 else s
  let s := if !checks.mint_revoked then s - 40 else s
  let s := if checks.is_honeypot then s - 60 else s
  let s := if !checks.has_social_links then s - 10 else s
  let s := if !checks.creator_verified then s - 10 else s
  let s := if checks.suspicious_creator then s - 30 else s
  min (max s 0) 100

/-- Status thresholds of `TokenAnalyzer::perform_safety_checks`
(`src/utils/token_analyzer.rs` lines 145-151). -/
def safety_status_of (score : ℤ) : TokenSafetyStatus :=
  if score ≥ 70 then .Safe
  else if score ≥ 40 then .Suspicious
  else .Dangerous

/-- Scoring part of `TokenAnalyzer::perform_safety_checks`
(`src/utils/token_analyzer.rs` lines 118-158), as a function of the computed
`SafetyChecks`; the final `score as u32` cast is `Int.toNat` (the clamp makes
the score non-negative). -/
def perform_safety_checks (checks : SafetyChecks) : TokenSafety :=
  let score := safety_score checks
  { status := safety_status_of score
    score := score.toNat
    checks := checks }

/-- `TokenAnalyzer::calculate_metrics` (`src/utils/token_analyzer.rs` lines
92-115). Reserve lamports are converted to SOL by dividing by
`LAMPORTS_PER_SOL = 1_000_000_000`; the price divisor is
`(virtual_tokens - real_tokens).max(1.0)`. -/
def calculate_metrics (bonding_curve : BondingCurveInfo) : TokenMetrics :=
  let virtual_sol : ℚ := (bonding_curve.virtual_sol_reserves : ℚ) / 1000000000
  let virtual_tokens : ℚ := (bonding_curve.virtual_token_reserves : ℚ)
  let real_sol : ℚ := (bonding_curve.real_sol_reserves : ℚ) / 1000000000
  let real_tokens : ℚ := (bonding_curve.real_token_reserves : ℚ)
  let price := (virtual_sol + real_sol) / max (virtual_tokens - real_tokens) 1
  { market_cap := price * (bonding_curve.token_total_supply : ℚ)
    liquidity := virtual_sol + real_sol
    holders := 0
    volume_24h := 0
    price := price
    price_change_24h := 0 }

/-- `should_trade_token` (`src/lib.rs` lines 132-153): safety score, market
cap range, liquidity, in that order, short-circuiting on first failure. -/
def should_trade_token (analysis : TokenAnalysis) (config : BotConfig) : Bool :=
  if analysis.safety.score < 60 then
    false
  else if analysis.metrics.market_cap < config.min_market_cap ||
          analysis.metrics.market_cap > config.max_market_cap then
    false
  else if analysis.metrics.liquidity < config.min_liquidity then
    false
  else
    true

/-- Outcome of the external transaction path of an execute call: the
transaction build step may fail (its error propagates out through `?`), and a
built transaction is either confirmed or rejected by
`SolanaClient::send_transaction`. -/
inductive TxOutcome where
  | buildFail
  | sendOk (signature : String)
  | sendErr
deriving DecidableEq, Repr

/-- Mutable state of `Trader` (`src/traders/trader.rs` lines 12-22): the
position map (keyed by `token_address.to_string()`, modelled as an
association list), the two in-flight flags, and the rate-limiting counters.
`last_buy_time : u64` millis and `daily_trades : u32` as `Nat`,
`last_reset_date` as the `%Y-%m-%d` string. -/
structure TraderState where
  positions : List (String × Position)
  is_buying : Bool
  is_selling : Bool
  last_buy_time : Nat
  daily_trades : Nat
  last_reset_date : String
deriving DecidableEq, Repr

/-- State built by `Trader::new` (`src/traders/trader.rs` lines 35-45);
`start_date` is the `Utc::now()` date string read at construction. -/
def initial_trader_state (start_date : String) : TraderState :=
  { positions := []
    is_buying := false
    is_selling := false
    last_buy_time := 0
    daily_trades := 0
    last_reset_date := start_date }

/-- Remove every entry with key `k` (helper for the `HashMap::insert`
semantics of the position map). -/
def remove_key (k : String) (m : List (String × Position)) :
    List (String × Position) :=
  m.filter (fun e => e.1 != k)

/-- `HashMap::insert`: the new binding replaces any existing binding of `k`. -/
def map_insert (k : String) (v : Position) (m : List (String × Position)) :
    List (String × Position) :=
  (k, v) :: remove_key k m

/-- `HashMap::get_mut` followed by an in-place mutation: apply `f` to the
entry bound to `k`, leave the map unchanged when `k` is absent. -/
def map_modify (k : String) (f : Position → Position)
    (m : List (String × Position)) : List (String × Position) :=
  m.map (fun e => if e.1 == k then (e.1, f e.2) else e)

/-- `HashMap::get`: the value bound to `k`, if any. -/
def lookup_key (k : String) (m : List (String × Position)) : Option Position :=
  (m.find? (fun e => e.1 == k)).map Prod.snd

/-- Keys of the position map. -/
def map_keys (m : List (String × Position)) : List String :=
  m.map Prod.fst

/-- `Trader::reset_daily_trades_if_needed` (`src/traders/trader.rs` lines
258-264): on a date-string mismatch, zero the daily counter and store the new
date. -/
def reset_daily_trades_if_needed (st : TraderState) (today : String) :
    TraderState :=
  if today ≠ st.last_reset_date then
    { st with daily_trades := 0, last_reset_date := today }
  else
    st

/-- `Trader::can_buy` (`src/traders/trader.rs` lines 220-244), returning the
decision together with the state after the embedded daily reset. Checks in
source order: cooldown (`now - last_buy` is unchecked `u64` subtraction),
then — after `reset_daily_trades_if_needed` — the daily cap
`max_trades_per_hour * 24` (unchecked `u32` multiplication), then the
`is_buying` flag. -/
def can_buy (config : BotConfig) (st : TraderState) (now : Nat)
    (today : String) : Bool × TraderState :=
  if u64_sub now st.last_buy_time < config.trading_cooldown_ms then
    (false, st)
  else
    let st1 := reset_daily_trades_if_needed st today
    if st1.daily_trades ≥ config.max_trades_per_hour * 24 % 2 ^ 32 then
      (false, st1)
    else if st1.is_buying then
      (false, st1)
    else
      (true, st1)

/-- `Trader::update_buy_tracking` (`src/traders/trader.rs` lines 247-255):
stamp `last_buy_time` and increment the `u32` daily counter. -/
def update_buy_tracking (st : TraderState) (now : Nat) : TraderState :=
  { st with
    last_buy_time := now
    daily_trades := (st.daily_trades + 1) % 2 ^ 32 }

/-- Position value built by `Trader::create_position`
(`src/traders/trader.rs` lines 268-282): `amount` is
`(buy_amount_sol * 1_000_000.0) as u64` (the float-to-int cast truncates;
non-negative here, so `Int.toNat ∘ Rat.floor`), entry and current price come
from the analysis metrics, and the take-profit / stop-loss levels are derived
from the configured percentages. -/
def new_position (config : BotConfig) (analysis : TokenAnalysis) (now : Nat) :
    Position :=
  { token_address := analysis.token.address
    token_symbol := analysis.token.symbol
    amount := (⌊config.buy_amount_sol * 1000000⌋).toNat
    entry_price := analysis.metrics.price
    current_price := analysis.metrics.price
    pnl := 0
    pnl_percentage := 0
    opened_at := now
    last_updated := now
    take_profit_price :=
      some (analysis.metrics.price * (1 + config.take_profit_percentage / 100))
    stop_loss_price :=
      some (analysis.metrics.price * (1 - config.stop_loss_percentage / 100))
    trailing_stop_price := none
    status := .Open }

/-- `Trader::create_position` (`src/traders/trader.rs` lines 267-288):
insert the new position keyed by `token_address.to_string()`, replacing any
existing entry for that key. -/
def create_position (config : BotConfig) (st : TraderState)
    (analysis : TokenAnalysis) (now : Nat) : TraderState :=
  { st with
    positions :=
      map_insert analysis.token.address (new_position config analysis now)
        st.positions }

/-- `Trader::update_position_after_sell` (`src/traders/trader.rs` lines
291-302): look up the stored position by the argument's address and subtract
`amount_sold` from its amount with the source's unchecked `u64` `-=`
(wraps past zero in release builds); status becomes Closed at zero, Partial
otherwise. -/
def update_position_after_sell (st : TraderState) (position : Position)
    (amount_sold : Nat) (now : Nat) : TraderState :=
  { st with
    positions :=
      map_modify position.token_address
        (fun pos =>
          let a := u64_sub pos.amount amount_sold
          { pos with
            amount := a
            status := if a = 0 then .Closed else .Partial
            last_updated := now })
        st.positions }

/-- `Trader::update_position_price` (`src/traders/trader.rs` lines 305-320):
store a freshly sampled price (the source draws a random walk step from the
scanned clone's price; the sampled `new_price` is passed in here) and
recompute PnL from it. -/
def update_position_price (st : TraderState) (position : Position)
    (new_price : ℚ) (now : Nat) : TraderState :=
  { st with
    positions :=
      map_modify position.token_address
        (fun pos =>
          { pos with
            current_price := new_price
            pnl := (new_price - pos.entry_price) * (pos.amount : ℚ)
            pnl_percentage :=
              (new_price - pos.entry_price) / pos.entry_price * 100
            last_updated := now })
        st.positions }

/-- `Trader::should_take_profit` (`src/traders/trader.rs` lines 323-328). -/
def should_take_profit (position : Position) : Bool :=
  match position.take_profit_price with
  | some tp_price => position.current_price ≥ tp_price
  | none => false

/-- `Trader::should_stop_loss` (`src/traders/trader.rs` lines 331-336). -/
def should_stop_loss (position : Position) : Bool :=
  match position.stop_loss_price with
  | some sl_price => position.current_price ≤ sl_price
  | none => false

/-- Exit decision of one loop iteration of `Trader::check_automated_sells`
(`src/traders/trader.rs` lines 178-185): take-profit is tested first, then
stop-loss; either branch requests a 100% sell. -/
def exit_decision (position : Position) : Option ℚ :=
  if should_take_profit position then some 100
  else if should_stop_loss position then some 100
  else none

/-- Amount sold by `Trader::execute_sell` (`src/traders/trader.rs` line 128):
`((amount as f64) * percentage / 100.0) as u64`, a truncating cast. -/
def amount_to_sell (position : Position) (percentage : ℚ) : Nat :=
  (⌊(position.amount : ℚ) * percentage / 100⌋).toNat

/-- `Trader::execute_sell` (`src/traders/trader.rs` lines 114-168). Returns
the new state and `false` exactly when an error propagates out through `?`
(transaction build failure). If a sell is already in flight the call returns
immediately; in simulation mode the settlement is applied directly
(`simulate_sell`, lines 206-217); otherwise `is_selling` is set before the
gateway call and — in every outcome — never cleared afterwards. -/
def execute_sell (config : BotConfig) (st : TraderState)
    (position : Position) (percentage : ℚ) (gw : TxOutcome) (now : Nat) :
    TraderState × Bool :=
  if st.is_selling then
    (st, true)
  else if config.simulation_mode then
    (update_position_after_sell st position
      (amount_to_sell position percentage) now, true)
  else
    let st2 := { st with is_selling := true }
    match gw with
    | .buildFail => (st2, false)
    | .sendOk _ =>
        (update_position_after_sell st2 position
          (amount_to_sell position percentage) now, true)
    | .sendErr => (st2, true)

/-- `Trader::execute_buy` (`src/traders/trader.rs` lines 54-111). Returns the
new state and `false` exactly when an error propagates out through `?`
(transaction build failure). Admission is `can_buy` (whose daily reset
persists); simulation mode applies tracking and position creation directly
(`simulate_buy`, lines 192-203); otherwise, after the balance check,
`is_buying` is set before the gateway call and — in every outcome — never
cleared afterwards; on a confirmed send, tracking is updated and the position
created with the flag still set. -/
def execute_buy (config : BotConfig) (st : TraderState)
    (analysis : TokenAnalysis) (now : Nat) (today : String) (balance : ℚ)
    (gw : TxOutcome) : TraderState × Bool :=
  let c := can_buy config st now today
  if !c.1 then
    (c.2, true)
  else if config.simulation_mode then
    (create_position config (update_buy_tracking c.2 now) analysis now, true)
  else if balance < config.buy_amount_sol + 1 / 100 then
    (c.2, true)
  else
    let st2 := { c.2 with is_buying := true }
    match gw with
    | .buildFail => (st2, false)
    | .sendOk _ =>
        (create_position config (update_buy_tracking st2 now) analysis now,
          true)
    | .sendErr => (st2, true)

/-- Loop body of `Trader::check_automated_sells` (`src/traders/trader.rs`
lines 174-186) over the snapshot of positions cloned at entry: re-price each
scanned position (the sampled new price is `np p`), then evaluate the exit
decision on the scanned clone `p` (whose `current_price` predates the
refresh, as in the source) and route a firing trigger through
`execute_sell`; a propagated error aborts the remaining iterations. -/
def check_automated_sells_go (config : BotConfig) (np : Position → ℚ)
    (gw : Position → TxOutcome) (now : Nat) :
    TraderState → List Position → TraderState × Bool
  | st, [] => (st, true)
  | st, p :: rest =>
      let st1 := update_position_price st p (np p) now
      match exit_decision p with
      | some pct =>
          let r := execute_sell config st1 p pct (gw p) now
          if r.2 then check_automated_sells_go config np gw now r.1 rest
          else (r.1, false)
      | none => check_automated_sells_go config np gw now st1 rest

/-- `Trader::check_automated_sells` (`src/traders/trader.rs` lines 171-189):
clone `self.positions.read().values()` — every stored position, of every
status — and run the scan loop over that snapshot. -/
def check_automated_sells (config : BotConfig) (st : TraderState)
    (np : Position → ℚ) (gw : Position → TxOutcome) (now : Nat) :
    TraderState × Bool :=
  check_automated_sells_go config np gw now st (st.positions.map Prod.snd)

/-- `Trader::stop` (`src/traders/trader.rs` lines 339-344): the only place the
in-flight flags are reset. -/
def stop_trader (st : TraderState) : TraderState :=
  { st with is_buying := false, is_selling := false }

/-- One externally triggered operation of the trader, with arbitrary
collaborator inputs. -/
inductive TraderStep : TraderState → TraderState → Prop where
  | buy : ∀ config st analysis now today balance gw,
      TraderStep st (execute_buy config st analysis now today balance gw).1
  | sell : ∀ config st position percentage gw now,
      TraderStep st (execute_sell config st position percentage gw now).1
  | autoSell : ∀ config st np gw now,
      TraderStep st (check_automated_sells config st np gw now).1
  | shutdown : ∀ st, TraderStep st (stop_trader st)

/-- States reachable from a freshly constructed trader. -/
inductive ReachableTrader : TraderState → Prop where
  | init : ∀ start_date, ReachableTrader (initial_trader_state start_date)
  | step : ∀ st st2, ReachableTrader st → TraderStep st st2 →
      ReachableTrader st2

/-- Scenario-B safety checks: every check false except `has_social_links`. -/
def sample_checks_b : SafetyChecks :=
  { has_lock := false
    mint_revoked := false
    is_honeypot := false
    has_social_links := true
    creator_verified := false
    suspicious_creator := false }

/-- Scenario-A bonding curve: 1 SOL of virtual quote reserves (in lamports),
10^9 virtual base reserves, no real reserves, total supply 10^9. -/
def sample_curve_a : BondingCurveInfo :=
  { address := "BC"
    token_address := "TOK"
    virtual_sol_reserves := 1000000000
    virtual_token_reserves := 1000000000
    real_sol_reserves := 0
    real_token_reserves := 0
    token_total_supply := 1000000000
    complete := false }

/-- The default configuration values of `BotConfig::default`
(`src/config.rs` lines 49-94), simulation mode on. -/
def sample_config_sim : BotConfig :=
  { buy_amount_sol := 1 / 10
    min_liquidity := 5
    max_slippage := 25
    take_profit_percentage := 100
    stop_loss_percentage := 30
    trading_cooldown_ms := 5000
    max_trades_per_hour := 10
    min_market_cap := 1000
    max_market_cap := 50000
    simulation_mode := true }

/-- Same configuration with simulation mode off (live execution path). -/
def sample_config_live : BotConfig :=
  { sample_config_sim with simulation_mode := false }

/-- Analysis of a token whose metrics price is 1 and which passes every
admission filter. -/
def sample_analysis : TokenAnalysis :=
  { token := { address := "TOK", symbol := "TOKX" }
    bonding_curve := sample_curve_a
    metrics :=
      { market_cap := 2000
        liquidity := 10
        holders := 0
        volume_24h := 0
        price := 1
        price_change_24h := 0 }
    safety :=
      perform_safety_checks
        { has_lock := true
          mint_revoked := true
          is_honeypot := false
          has_social_links := true
          creator_verified := true
          suspicious_creator := false } }

/-- Freshly constructed trader state. -/
def sample_state_fresh : TraderState :=
  initial_trader_state "2024-01-01"

/-- Scenario-D position: opened at entry price 1 with the default
configuration (take-profit percentage 100, hence take-profit price 2), then
observed at current price 2. -/
def sample_position_tp : Position :=
  { new_position sample_config_sim sample_analysis 50 with current_price := 2 }

/-- Trader state holding the scenario-D position. -/
def sample_state_tp : TraderState :=
  { sample_state_fresh with positions := [("TOK", sample_position_tp)] }

/-- The scenario-D position with every field written out as a literal
(equal to `sample_position_tp`, as proved below). -/
def sample_position_tp_literal : Position :=
  { token_address := "TOK"
    token_symbol := "TOKX"
    amount := 100000
    entry_price := 1
    current_price := 2
    pnl := 0
    pnl_percentage := 0
    opened_at := 50
    last_updated := 50
    take_profit_price := some 2
    stop_loss_price := some (7 / 10)
    trailing_stop_price := none
    status := .Open }

/-- A stored position holding 5 base units. -/
def sample_position_small : Position :=
  { token_address := "TOK"
    token_symbol := "TOKX"
    amount := 5
    entry_price := 1
    current_price := 2
    pnl := 0
    pnl_percentage := 0
    opened_at := 10
    last_updated := 20
    take_profit_price := some 2
    stop_loss_price := none
    trailing_stop_price := none
    status := .Open }

/-- Trader state holding `sample_position_small`. -/
def sample_state_small : TraderState :=
  { sample_state_fresh with positions := [("TOK", sample_position_small)] }

/-- A Closed position with no exit triggers, current price 1. -/
def sample_position_closed : Position :=
  { token_address := "C"
    token_symbol := "CLSD"
    amount := 0
    entry_price := 1
    current_price := 1
    pnl := 0
    pnl_percentage := 0
    opened_at := 10
    last_updated := 20
    take_profit_price := none
    stop_loss_price := none
    trailing_stop_price := none
    status := .Closed }

/-- Trader state holding only `sample_position_closed`. -/
def sample_state_closed : TraderState :=
  { sample_state_fresh with positions := [("C", sample_position_closed)] }

/-- Fresh trader state with the buy in-flight flag raised. -/
def sample_state_in_flight : TraderState :=
  { sample_state_fresh with is_buying := true }

/-- Fresh trader state with the daily counter at the derived daily cap of
`sample_config_sim` (10 × 24 = 240). -/
def sample_state_capped : TraderState :=
  { sample_state_fresh with daily_trades := 240 }

/-! Helper lemmas about the position-map operations. -/

theorem map_keys_remove_sublist (k : String) (m : List (String × Position)) :
    List.Sublist (map_keys (remove_key k m)) (map_keys m) :=
  (List.filter_sublist m).map Prod.fst

theorem nodup_map_keys_remove (k : String) {m : List (String × Position)}
    (h : (map_keys m).Nodup) : (map_keys (remove_key k m)).Nodup :=
  h.sublist (map_keys_remove_sublist k m)

theorem not_mem_map_keys_remove (k : String) (m : List (String × Position)) :
    k ∉ map_keys (remove_key k m) := by
  simp only [map_keys, remove_key, List.mem_map, List.mem_filter]
  rintro ⟨e, ⟨_, hne⟩, rfl⟩
  simp at hne

theorem nodup_map_keys_insert (k : String) (v : Position)
    {m : List (String × Position)} (h : (map_keys m).Nodup) :
    (map_keys (map_insert k v m)).Nodup := by
  have hk : map_keys (map_insert k v m) = k :: map_keys (remove_key k m) := rfl
  rw [hk, List.nodup_cons]
  exact ⟨not_mem_map_keys_remove k m, nodup_map_keys_remove k h⟩

theorem map_keys_map_modify (k : String) (f : Position → Position)
    (m : List (String × Position)) : map_keys (map_modify k f m) = map_keys m := by
  induction m with
  | nil => rfl
  | cons e t ih =>
      simp only [map_keys, map_modify, List.map_cons] at ih ⊢
      have hh : (if (e.1 == k) = true then (e.1, f e.2) else e).1 = e.1 := by
        split <;> rfl
      rw [hh, ih]

theorem lookup_key_map_modify (k : String) (f : Position → Position)
    (m : List (String × Position)) :
    lookup_key k (map_modify k f m) = (lookup_key k m).map f := by
  induction m with
  | nil => rfl
  | cons e t ih =>
      by_cases h : e.1 == k
      · simp [lookup_key, map_modify, List.find?, h]
      · simp only [lookup_key, map_modify, List.map_cons] at ih ⊢
        rw [if_neg h]
        simp only [List.find?]
        rw [show (e.1 == k) = false by simpa using h]
        exact ih

theorem lookup_key_insert_self (k : String) (v : Position)
    (m : List (String × Position)) :
    lookup_key k (map_insert k v m) = some v := by
  simp [lookup_key, map_insert, List.find?]

theorem lookup_key_singleton (k : String) (v : Position) :
    lookup_key k [(k, v)] = some v := by
  simp [lookup_key, List.find?]

/-! Helper lemmas: the rate-limiting operations do not touch the position
map, and the map mutations preserve key uniqueness. -/

theorem positions_reset_daily (st : TraderState) (today : String) :
    (reset_daily_trades_if_needed st today).positions = st.positions := by
  unfold reset_daily_trades_if_needed
  split <;> rfl

theorem is_buying_reset_daily (st : TraderState) (today : String) :
    (reset_daily_trades_if_needed st today).is_buying = st.is_buying := by
  unfold reset_daily_trades_if_needed
  split <;> rfl

theorem positions_can_buy (config : BotConfig) (st : TraderState) (now : Nat)
    (today : String) : (can_buy config st now today).2.positions = st.positions := by
  simp only [can_buy]
  split
  · rfl
  · split
    · exact positions_reset_daily st today
    · split
      · exact positions_reset_daily st today
      · exact positions_reset_daily st today

theorem nodup_update_position_after_sell (st : TraderState)
    (position : Position) (amount_sold now : Nat)
    (h : (map_keys st.positions).Nodup) :
    (map_keys (update_position_after_sell st position amount_sold now).positions).Nodup := by
  simpa only [update_position_after_sell, map_keys_map_modify] using h

theorem nodup_update_position_price (st : TraderState) (position : Position)
    (new_price : ℚ) (now : Nat) (h : (map_keys st.positions).Nodup) :
    (map_keys (update_position_price st position new_price now).positions).Nodup := by
  simpa only [update_position_price, map_keys_map_modify] using h

theorem nodup_create_position (config : BotConfig) (st : TraderState)
    (analysis : TokenAnalysis) (now : Nat)
    (h : (map_keys st.positions).Nodup) :
    (map_keys (create_position config st analysis now).positions).Nodup :=
  nodup_map_keys_insert _ _ h

theorem nodup_execute_sell (config : BotConfig) (st : TraderState)
    (position : Position) (percentage : ℚ) (gw : TxOutcome) (now : Nat)
    (h : (map_keys st.positions).Nodup) :
    (map_keys (execute_sell config st position percentage gw now).1.positions).Nodup := by
  simp only [execute_sell]
  split
  · exact h
  · split
    · exact nodup_update_position_after_sell st position _ now h
    · split
      · exact h
      · exact nodup_update_position_after_sell { st with is_selling := true }
          position _ now h
      · exact h

theorem nodup_execute_buy (config : BotConfig) (st : TraderState)
    (analysis : TokenAnalysis) (now : Nat) (today : String) (balance : ℚ)
    (gw : TxOutcome) (h : (map_keys st.positions).Nodup) :
    (map_keys (execute_buy config st analysis now today balance gw).1.positions).Nodup := by
  have hc : (map_keys (can_buy config st now today).2.positions).Nodup := by
    rw [positions_can_buy]; exact h
  simp only [execute_buy]
  split
  · exact hc
  · split
    · exact nodup_create_position config _ analysis now hc
    · split
      · exact hc
      · split
        · exact hc
        · exact nodup_create_position config _ analysis now hc
        · exact hc

theorem nodup_check_automated_sells_go (config : BotConfig)
    (np : Position → ℚ) (gw : Position → TxOutcome) (now : Nat)
    (l : List Position) :
    ∀ st : TraderState, (map_keys st.positions).Nodup →
      (map_keys (check_automated_sells_go config np gw now st l).1.positions).Nodup := by
  induction l with
  | nil => intro st h; exact h
  | cons p rest ih =>
      intro st h
      have h1 := nodup_update_position_price st p (np p) now h
      cases hed : exit_decision p with
      | none =>
          simp only [check_automated_sells_go, hed]
          exact ih _ h1
      | some pct =>
          have h2 := nodup_execute_sell config (update_position_price st p (np p) now)
            p pct (gw p) now h1
          simp only [check_automated_sells_go, hed]
          split
          · exact ih _ h2
          · exact h2

theorem nodup_check_automated_sells (config : BotConfig) (st : TraderState)
    (np : Position → ℚ) (gw : Position → TxOutcome) (now : Nat)
    (h : (map_keys st.positions).Nodup) :
    (map_keys (check_automated_sells config st np gw now).1.positions).Nodup :=
  nodup_check_automated_sells_go config np gw now _ st h

theorem u64_sub_of_le (a b : Nat) (hba : b ≤ a) (ha : a < 2 ^ 64) :
    u64_sub a b = a - b := by
  unfold u64_sub
  rw [show a + 2 ^ 64 - b = a - b + 2 ^ 64 by omega, Nat.add_mod_right,
    Nat.mod_eq_of_lt (by omega)]

theorem reset_daily_positions_irrel (st : TraderState)
    (ps : List (String × Position)) (today : String) :
    reset_daily_trades_if_needed { st with positions := ps } today
      = { reset_daily_trades_if_needed st today with positions := ps } := by
  unfold reset_daily_trades_if_needed
  by_cases h : today = st.last_reset_date
  · rw [if_neg (fun hn => hn h), if_neg (fun hn => hn h)]
  · rw [if_pos h, if_pos h]


/-! General helper lemmas about the execute paths. -/

theorem execute_buy_flag_stuck (config : BotConfig) (st : TraderState)
    (analysis : TokenAnalysis) (now : Nat) (today : String) (balance : ℚ)
    (gw : TxOutcome)
    (hadm : (can_buy config st now today).1 = true)
    (hsim : config.simulation_mode = false)
    (hbal : ¬ (balance < config.buy_amount_sol + 1 / 100)) :
    (execute_buy config st analysis now today balance gw).1.is_buying = true := by
  simp only [execute_buy]
  rw [if_neg (show ¬ ((!(can_buy config st now today).1) = true) by simp [hadm])]
  rw [if_neg (show ¬ (config.simulation_mode = true) by simp [hsim])]
  rw [if_neg hbal]
  cases gw <;> rfl

theorem execute_sell_flag_stuck (config : BotConfig) (st : TraderState)
    (position : Position) (percentage : ℚ) (gw : TxOutcome) (now : Nat)
    (hsel : st.is_selling = false)
    (hsim : config.simulation_mode = false) :
    (execute_sell config st position percentage gw now).1.is_selling = true := by
  simp only [execute_sell]
  rw [if_neg (show ¬ (st.is_selling = true) by simp [hsel])]
  rw [if_neg (show ¬ (config.simulation_mode = true) by simp [hsim])]
  cases gw <;> rfl

/-! The claim theorems. -/

/-- C1: the claim states that after a gateway call completes — success or
failure — the corresponding in-flight flag is cleared back to false. The
code never clears either flag: here a buy that passes admission and whose
gateway send succeeds (or fails) leaves `is_buying = true`, and likewise an
executed sell leaves `is_selling = true`; only `Trader::stop` resets them. -/
theorem execute_flags_never_cleared :
    (can_buy sample_config_live sample_state_fresh 10000 "2024-01-01").1 = true
    ∧ (execute_buy sample_config_live sample_state_fresh sample_analysis 10000
        "2024-01-01" 1 (TxOutcome.sendOk "sig")).1.is_buying = true
    ∧ (execute_buy sample_config_live sample_state_fresh sample_analysis 10000
        "2024-01-01" 1 TxOutcome.sendErr).1.is_buying = true
    ∧ sample_state_tp.is_selling = false
    ∧ (execute_sell sample_config_live sample_state_tp sample_position_tp 100
        (TxOutcome.sendOk "sig") 70).1.is_selling = true
    ∧ (execute_sell sample_config_live sample_state_tp sample_position_tp 100
        TxOutcome.sendErr 70).1.is_selling = true := by
  have hadm : (can_buy sample_config_live sample_state_fresh 10000
      "2024-01-01").1 = true := by decide
  have hbal : ¬ ((1 : ℚ) < sample_config_live.buy_amount_sol + 1 / 100) := by
    norm_num [sample_config_live, sample_config_sim]
  refine ⟨hadm, ?_, ?_, rfl, ?_, ?_⟩
  · exact execute_buy_flag_stuck _ _ _ _ _ _ _ hadm rfl hbal
  · exact execute_buy_flag_stuck _ _ _ _ _ _ _ hadm rfl hbal
  · exact execute_sell_flag_stuck _ _ _ _ _ _ rfl rfl
  · exact execute_sell_flag_stuck _ _ _ _ _ _ rfl rfl

/-- C2: the claim states that selling more than the held amount fails with
Overdraw and leaves the position unchanged. The code performs an unchecked
`u64` subtraction: selling 6 from a position holding 5 wraps the stored
amount around to `2^64 - 1` (release builds; debug builds abort) and marks
the position Partial. -/
theorem update_position_after_sell_overdraw_wraps :
    lookup_key "TOK"
        (update_position_after_sell sample_state_small sample_position_small 6
          99).positions
      = some { sample_position_small with
          amount := 2 ^ 64 - 1
          status := PositionStatus.Partial
          last_updated := 99 } := by
  decide

/-- C3 counterexample: with every check false except `has_social_links`, the
safety score is 100 − 35 − 40 − 10 = 15, not the claimed −15-clamped-to-0:
the −30 suspicious-creator penalty only applies when `suspicious_creator` is
true, and here it is false. -/
theorem scenario_b_score_is_fifteen_not_zero :
    (perform_safety_checks sample_checks_b).score = 15
    ∧ (perform_safety_checks sample_checks_b).score ≠ 0 := by
  decide

/-- C3 amended: for the scenario-B checks the score is
100 − 35 − 40 − 10 = 15 (no honeypot penalty, no missing-social penalty and
no suspicious-creator penalty), the status is Dangerous (15 < 40), and buy
admission rejects the asset at the safety-threshold step (15 < 60),
whatever the rest of the analysis and configuration are. -/
theorem scenario_b_amended_rejected_as_dangerous :
    ∀ (config : BotConfig) (token : TokenInfo) (bc : BondingCurveInfo)
      (metrics : TokenMetrics),
      (perform_safety_checks sample_checks_b).score = 15
      ∧ (perform_safety_checks sample_checks_b).status
          = TokenSafetyStatus.Dangerous
      ∧ should_trade_token
          { token := token, bonding_curve := bc, metrics := metrics,
            safety := perform_safety_checks sample_checks_b } config = false :=
  fun _ _ _ _ => ⟨by decide, by decide, rfl⟩

/-- C4: whenever the buy in-flight flag is raised, `can_buy` returns false —
no second buy is admitted while one is in flight, whatever the cooldown
state, daily counter, or date are. -/
theorem can_buy_rejects_while_in_flight (config : BotConfig)
    (st : TraderState) (now : Nat) (today : String)
    (h : st.is_buying = true) :
    (can_buy config st now today).1 = false := by
  have hb : (reset_daily_trades_if_needed st today).is_buying = true := by
    rw [is_buying_reset_daily]; exact h
  simp only [can_buy]
  by_cases h1 : u64_sub now st.last_buy_time < config.trading_cooldown_ms
  · rw [if_pos h1]
  · rw [if_neg h1]
    by_cases h2 : (reset_daily_trades_if_needed st today).daily_trades ≥
        config.max_trades_per_hour * 24 % 2 ^ 32
    · rw [if_pos h2]
    · rw [if_neg h2, if_pos hb]

/-- Witness for C4 at a concrete in-flight state. -/
theorem can_buy_rejects_while_in_flight_witness :
    sample_state_in_flight.is_buying = true
    ∧ (can_buy sample_config_sim sample_state_in_flight 10000 "2024-01-01").1
        = false :=
  ⟨rfl, can_buy_rejects_while_in_flight sample_config_sim sample_state_in_flight
    10000 "2024-01-01" rfl⟩

/-- C5: when the cooldown passes and no buy is in flight (and the derived
daily cap does not overflow `u32`), `can_buy` rejects exactly when the
post-reset daily counter has reached `max_trades_per_hour * 24`; the daily
reset runs before the cap check and, on a UTC date-string mismatch, zeroes
the counter and stores the new date — so buys on different UTC calendar
dates count toward different daily buckets. -/
theorem can_buy_daily_cap_reset_first (config : BotConfig) (st : TraderState)
    (now : Nat) (today : String)
    (hcool : config.trading_cooldown_ms ≤ u64_sub now st.last_buy_time)
    (hflag : st.is_buying = false)
    (hcap : config.max_trades_per_hour * 24 < 2 ^ 32) :
    ((can_buy config st now today).1 = false ↔
        config.max_trades_per_hour * 24 ≤
          (reset_daily_trades_if_needed st today).daily_trades)
    ∧ (can_buy config st now today).2 = reset_daily_trades_if_needed st today
    ∧ (today ≠ st.last_reset_date →
        (reset_daily_trades_if_needed st today).daily_trades = 0 ∧
          (reset_daily_trades_if_needed st today).last_reset_date = today) := by
  have hmod : config.max_trades_per_hour * 24 % 2 ^ 32
      = config.max_trades_per_hour * 24 := Nat.mod_eq_of_lt hcap
  have hb : (reset_daily_trades_if_needed st today).is_buying = false := by
    rw [is_buying_reset_daily]; exact hflag
  have hnc : ¬ (u64_sub now st.last_buy_time < config.trading_cooldown_ms) :=
    Nat.not_lt.mpr hcool
  refine ⟨?_, ?_, ?_⟩
  · simp only [can_buy]
    rw [if_neg hnc]
    by_cases hd : (reset_daily_trades_if_needed st today).daily_trades ≥
        config.max_trades_per_hour * 24 % 2 ^ 32
    · rw [if_pos hd]
      rw [hmod] at hd
      simpa using hd
    · rw [if_neg hd, if_neg (by simp [hb])]
      rw [hmod] at hd
      simpa using hd
  · simp only [can_buy]
    rw [if_neg hnc]
    by_cases hd : (reset_daily_trades_if_needed st today).daily_trades ≥
        config.max_trades_per_hour * 24 % 2 ^ 32
    · rw [if_pos hd]
    · rw [if_neg hd, if_neg (by simp [hb])]
  · intro hne
    unfold reset_daily_trades_if_needed
    rw [if_pos hne]
    exact ⟨rfl, rfl⟩

/-- Witness for C5 at the derived daily cap 10 × 24 = 240. -/
theorem can_buy_daily_cap_reset_first_witness :
    (sample_config_sim.trading_cooldown_ms
        ≤ u64_sub 10000 sample_state_capped.last_buy_time
      ∧ sample_state_capped.is_buying = false
      ∧ sample_config_sim.max_trades_per_hour * 24 < 2 ^ 32)
    ∧ (((can_buy sample_config_sim sample_state_capped 10000 "2024-01-01").1
          = false ↔
        sample_config_sim.max_trades_per_hour * 24 ≤
          (reset_daily_trades_if_needed sample_state_capped
            "2024-01-01").daily_trades)
      ∧ (can_buy sample_config_sim sample_state_capped 10000 "2024-01-01").2
          = reset_daily_trades_if_needed sample_state_capped "2024-01-01"
      ∧ ("2024-01-01" ≠ sample_state_capped.last_reset_date →
          (reset_daily_trades_if_needed sample_state_capped
            "2024-01-01").daily_trades = 0 ∧
            (reset_daily_trades_if_needed sample_state_capped
              "2024-01-01").last_reset_date = "2024-01-01")) :=
  ⟨⟨by decide, rfl, by decide⟩,
    can_buy_daily_cap_reset_first sample_config_sim sample_state_capped 10000
      "2024-01-01" (by decide) rfl (by decide)⟩

/-- C6: settling a sell of exactly the stored amount closes the position at
amount 0; settling a positive amount strictly below the held amount leaves a
positive amount with status Partial. -/
theorem update_position_after_sell_settles
    (st : TraderState) (position stored : Position) (amount_sold now : Nat)
    (hlk : lookup_key position.token_address st.positions = some stored)
    (hbound : stored.amount < 2 ^ 64) :
    (amount_sold = stored.amount →
      lookup_key position.token_address
          (update_position_after_sell st position amount_sold now).positions
        = some { stored with
            amount := 0
            status := PositionStatus.Closed
            last_updated := now })
    ∧ (0 < amount_sold → amount_sold < stored.amount →
        ∃ q, lookup_key position.token_address
              (update_position_after_sell st position amount_sold now).positions
            = some q
          ∧ q.amount = stored.amount - amount_sold
          ∧ 0 < q.amount
          ∧ q.status = PositionStatus.Partial) := by
  constructor
  · intro heq
    subst heq
    have h0 : u64_sub stored.amount stored.amount = 0 := by
      rw [u64_sub_of_le _ _ le_rfl hbound]
      omega
    simp [update_position_after_sell, lookup_key_map_modify, hlk, h0]
  · intro hpos hlt
    have hs : u64_sub stored.amount amount_sold = stored.amount - amount_sold :=
      u64_sub_of_le _ _ (le_of_lt hlt) hbound
    have hne : stored.amount - amount_sold ≠ 0 := Nat.sub_ne_zero_of_lt hlt
    refine ⟨{ stored with
        amount := stored.amount - amount_sold
        status := PositionStatus.Partial
        last_updated := now }, ?_, rfl, ?_, rfl⟩
    · simp [update_position_after_sell, lookup_key_map_modify, hlk, hs, hne]
    · show 0 < stored.amount - amount_sold
      omega

/-- Witness for C6: a full sell of the 5-unit position closes it at 0. -/
theorem update_position_after_sell_full_witness :
    lookup_key sample_position_small.token_address
        (update_position_after_sell sample_state_small sample_position_small 5
          99).positions
      = some { sample_position_small with
          amount := 0
          status := PositionStatus.Closed
          last_updated := 99 } :=
  (update_position_after_sell_settles sample_state_small
      sample_position_small sample_position_small 5 99 rfl (by decide)).1 rfl

/-! Helper facts for the scenario-D evaluation. -/

theorem sample_position_tp_eq_literal :
    sample_position_tp = sample_position_tp_literal := by
  norm_num [sample_position_tp, sample_position_tp_literal, new_position,
    sample_config_sim, sample_analysis]
  all_goals decide

theorem exit_decision_tp_literal :
    exit_decision sample_position_tp_literal = some 100 := by
  norm_num [exit_decision, should_take_profit, sample_position_tp_literal]

theorem amount_to_sell_tp_literal :
    amount_to_sell sample_position_tp_literal 100 = 100000 := by
  norm_num [amount_to_sell, sample_position_tp_literal]
  all_goals decide

theorem execute_sell_tp_literal_step :
    execute_sell sample_config_sim
      (update_position_price sample_state_tp sample_position_tp_literal
        sample_position_tp_literal.current_price 60)
      sample_position_tp_literal 100 (TxOutcome.sendOk "sig") 60
    = (update_position_after_sell
        (update_position_price sample_state_tp sample_position_tp_literal
          sample_position_tp_literal.current_price 60)
        sample_position_tp_literal 100000 60, true) := by
  simp only [execute_sell]
  rw [if_neg (show ¬ ((update_position_price sample_state_tp
      sample_position_tp_literal sample_position_tp_literal.current_price
      60).is_selling = true) by decide)]
  rw [if_pos (show sample_config_sim.simulation_mode = true from rfl)]
  rw [amount_to_sell_tp_literal]

/-- C7: the exit scan tests take-profit before stop-loss and either firing
trigger requests a 100% sell; a position opened at entry price 1 with
take-profit percentage 100 has take-profit price 2, and at current price 2
one exit-engine tick routes a 100% sell through, fully closing the
position. -/
theorem exit_checks_order_and_scenario_d :
    (∀ p : Position, should_take_profit p = true → exit_decision p = some 100)
    ∧ (∀ p : Position, should_take_profit p = false →
        should_stop_loss p = true → exit_decision p = some 100)
    ∧ (new_position sample_config_sim sample_analysis 50).take_profit_price
        = some 2
    ∧ should_take_profit sample_position_tp = true
    ∧ lookup_key "TOK"
        (check_automated_sells sample_config_sim sample_state_tp
          (fun p => p.current_price) (fun _ => TxOutcome.sendOk "sig")
          60).1.positions
      = some { sample_position_tp with
          amount := 0
          pnl := 100000
          pnl_percentage := 100
          status := PositionStatus.Closed
          last_updated := 60 } := by
  refine ⟨?_, ?_, ?_, ?_, ?_⟩
  · intro p h
    simp [exit_decision, h]
  · intro p h1 h2
    simp [exit_decision, h1, h2]
  · norm_num [new_position, sample_config_sim, sample_analysis]
  · rw [sample_position_tp_eq_literal]
    decide
  · have hS : sample_state_tp.positions
        = [("TOK", sample_position_tp_literal)] := by
      simp only [sample_state_tp]
      rw [sample_position_tp_eq_literal]
    rw [sample_position_tp_eq_literal]
    simp only [check_automated_sells, hS, List.map_cons, List.map_nil]
    simp only [check_automated_sells_go, exit_decision_tp_literal]
    rw [execute_sell_tp_literal_step]
    simp only [check_automated_sells_go, Prod.snd, eq_self_iff_true, if_true]
    simp only [update_position_after_sell, update_position_price,
      show sample_position_tp_literal.token_address = "TOK" from rfl, hS]
    rw [lookup_key_map_modify, lookup_key_map_modify, lookup_key_singleton]
    norm_num [sample_position_tp_literal, u64_sub]

/-- Witness for C7 at the scenario-D position. -/
theorem exit_checks_order_witness :
    exit_decision sample_position_tp = some 100 :=
  exit_checks_order_and_scenario_d.1 sample_position_tp
    (by rw [sample_position_tp_eq_literal]; decide)

/-- C8: the derived metrics satisfy the stated formulas (quote reserves in
SOL, i.e. lamports divided by 10^9), and on the scenario-A snapshot the
price is exactly 10^-9, the market cap exactly 1, and the liquidity
exactly 1. -/
theorem calculate_metrics_shape_and_scenario_a :
    (∀ bc : BondingCurveInfo,
      (calculate_metrics bc).price =
        ((bc.virtual_sol_reserves : ℚ) / 1000000000
            + (bc.real_sol_reserves : ℚ) / 1000000000)
          / max 1 ((bc.virtual_token_reserves : ℚ)
              - (bc.real_token_reserves : ℚ))
      ∧ (calculate_metrics bc).market_cap
          = (calculate_metrics bc).price * (bc.token_total_supply : ℚ)
      ∧ (calculate_metrics bc).liquidity
          = (bc.virtual_sol_reserves : ℚ) / 1000000000
            + (bc.real_sol_reserves : ℚ) / 1000000000)
    ∧ (calculate_metrics sample_curve_a).price = 1 / 1000000000
    ∧ (calculate_metrics sample_curve_a).market_cap = 1
    ∧ (calculate_metrics sample_curve_a).liquidity = 1 := by
  refine ⟨fun bc => ⟨?_, rfl, rfl⟩,
    by norm_num [calculate_metrics, sample_curve_a, max_def],
    by norm_num [calculate_metrics, sample_curve_a, max_def],
    by norm_num [calculate_metrics, sample_curve_a]⟩
  simp only [calculate_metrics]
  rw [max_comm]

/-- C9 counterexample: the tick does not leave Closed positions unchanged —
a Closed position with no exit triggers and current price 1 is re-priced to
the freshly sampled price 2 by one `check_automated_sells` tick. -/
theorem tick_mutates_closed_position :
    (lookup_key "C" sample_state_closed.positions).map Position.status
        = some PositionStatus.Closed
    ∧ (lookup_key "C" sample_state_closed.positions).map Position.current_price
        = some 1
    ∧ (lookup_key "C"
          (check_automated_sells sample_config_sim sample_state_closed
            (fun _ => 2) (fun _ => TxOutcome.sendOk "sig") 42).1.positions).map
        Position.current_price = some 2 := by
  decide

/-- C9 amended: the tick enumerates every stored position regardless of
status; a Closed position (here with no exit triggers, so only the re-price
step runs on it) has its current price, PnL and timestamp rewritten by the
tick. -/
theorem tick_reprices_closed_positions
    (config : BotConfig) (st : TraderState) (p : Position) (np : Position → ℚ)
    (gw : Position → TxOutcome) (now : Nat)
    (hpos : st.positions = [(p.token_address, p)])
    (_hclosed : p.status = PositionStatus.Closed)
    (htp : p.take_profit_price = none)
    (hsl : p.stop_loss_price = none) :
    lookup_key p.token_address
        (check_automated_sells config st np gw now).1.positions
      = some { p with
          current_price := np p
          pnl := (np p - p.entry_price) * (p.amount : ℚ)
          pnl_percentage := (np p - p.entry_price) / p.entry_price * 100
          last_updated := now } := by
  have hed : exit_decision p = none := by
    simp [exit_decision, should_take_profit, should_stop_loss, htp, hsl]
  simp only [check_automated_sells, hpos, List.map_cons, List.map_nil]
  simp only [check_automated_sells_go, hed]
  simp only [update_position_price, hpos, lookup_key_map_modify,
    lookup_key_singleton, Option.map_some']

/-- Witness for the amended C9 at the concrete Closed position. -/
theorem tick_reprices_closed_positions_witness :
    sample_position_closed.status = PositionStatus.Closed
    ∧ lookup_key "C"
        (check_automated_sells sample_config_sim sample_state_closed
          (fun _ => 2) (fun _ => TxOutcome.sendOk "sig") 42).1.positions
      = some { sample_position_closed with
          current_price := 2
          pnl := (2 - sample_position_closed.entry_price)
            * (sample_position_closed.amount : ℚ)
          pnl_percentage := (2 - sample_position_closed.entry_price)
            / sample_position_closed.entry_price * 100
          last_updated := 42 } :=
  ⟨rfl,
    tick_reprices_closed_positions sample_config_sim sample_state_closed
      sample_position_closed (fun _ => 2) (fun _ => TxOutcome.sendOk "sig") 42
      rfl rfl rfl rfl⟩

/-- C10: in every reachable trader state the position ledger has pairwise
distinct keys (at most one entry per asset); a buy's `create_position`
unconditionally binds the asset key to the freshly built position —
replacing whatever entry was there, its amount and PnL included; and the
buy admission decision does not read the ledger at all. -/
theorem ledger_keys_unique_and_buy_replaces :
    (∀ st : TraderState, ReachableTrader st → (map_keys st.positions).Nodup)
    ∧ (∀ (config : BotConfig) (st : TraderState) (analysis : TokenAnalysis)
        (now : Nat),
        lookup_key analysis.token.address
            (create_position config st analysis now).positions
          = some (new_position config analysis now))
    ∧ (∀ (config : BotConfig) (st : TraderState)
        (ps : List (String × Position)) (now : Nat) (today : String),
        (can_buy config { st with positions := ps } now today).1
          = (can_buy config st now today).1) := by
  refine ⟨?_, ?_, ?_⟩
  · intro st h
    induction h with
    | init start_date => exact List.nodup_nil
    | step st1 st2 hr hstep ih =>
        cases hstep with
        | buy config s analysis now today balance gw =>
            exact nodup_execute_buy config st1 analysis now today balance gw ih
        | sell config s position percentage gw now =>
            exact nodup_execute_sell config st1 position percentage gw now ih
        | autoSell config s np gw now =>
            exact nodup_check_automated_sells config st1 np gw now ih
        | shutdown s => exact ih
  · intro config st analysis now
    exact lookup_key_insert_self _ _ _
  · intro config st ps now today
    simp only [can_buy, reset_daily_positions_irrel]
    split
    · rfl
    · split
      · rfl
      · split
        · rfl
        · rfl

/-- Witness for C10 at the initial state. -/
theorem ledger_keys_unique_witness :
    (map_keys (initial_trader_state "2024-01-01").positions).Nodup :=
  ledger_keys_unique_and_buy_replaces.1 _ (ReachableTrader.init "2024-01-01")

end PumpSniper
